import Mathlib

/-!
Verification of the cellaserv python client runtime (evolutek/python-cellaserv2).

This file gives a shallow embedding of the client-side protocol engine:

* the binary wire framing (4-byte big-endian length prefix, two-phase
  header/body reader of `cellaserv.client.AsynClient`),
* envelope construction of `cellaserv.client.AbstractClient`
  (`request`, `publish`, `reply_to`) and the request-id counter,
* the blocking request loop of `cellaserv.client.SynClient.request`,
* the request dispatch of `cellaserv.service.Service.on_request` together
  with `Service._decode_data` / `Service._decode_msg_data`,
* the publish-handler wrapper `_event_wrap` of
  `Service._setup_asynchronous`,
* the dependency wait loop `Service._setup_dependencies`.

Machine integers are modelled as `Nat`; byte strings as `List Nat`;
fallible operations return `Option` / explicit outcome types.
-/

namespace Cellaserv

/-! ## Binary framing (client.py)

`SynClient._send_message` writes `struct.pack("!I", len(msg)) + msg`;
`AsynClient._send_message` pushes the same two byte strings.
`AsynClient.found_terminator` reassembles frames with a two-phase
header/body state machine driven by asynchat terminators. -/

/-- `struct.pack("!I", n)`: 4-byte big-endian encoding of `n`. -/
def packUInt32BE (n : Nat) : List Nat :=
  [n / 16777216 % 256, n / 65536 % 256, n / 256 % 256, n % 256]

/-- `struct.unpack("!I", bs)[0]` on a 4-byte buffer. -/
def unpackUInt32BE (bs : List Nat) : Nat :=
  bs.foldl (fun acc b => acc * 256 + b) 0

/-- `SynClient._send_message` / `AsynClient._send_message`: the frame put on
the wire for serialized envelope bytes `msg`. -/
def send_message (msg : List Nat) : List Nat :=
  packUInt32BE msg.length ++ msg

/-- State of the two-phase reader of `AsynClient`: `read_header` and the
current asynchat terminator (`4` while reading a header, the message length
while reading a body), the input buffer `ibuffer`, plus the list of complete
messages handed to `on_message_recieved` so far. -/
structure ReaderState where
  read_header : Bool
  terminator : Nat
  ibuffer : List Nat
  delivered : List (List Nat)
  deriving Repr, DecidableEq

/-- `AsynClient.__init__`: `set_terminator(4)`, `_read_header = True`,
empty buffer. -/
def initReader : ReaderState :=
  { read_header := true, terminator := 4, ibuffer := [], delivered := [] }

/-- `AsynClient.found_terminator`: on a header, unpack the length and switch
to body phase; on a body, deliver the message and switch back to the header
phase. -/
def found_terminator (s : ReaderState) : ReaderState :=
  if s.read_header then
    { read_header := false
      terminator := unpackUInt32BE s.ibuffer
      ibuffer := []
      delivered := s.delivered }
  else
    { read_header := true
      terminator := 4
      ibuffer := []
      delivered := s.delivered ++ [s.ibuffer] }

/-- One incoming byte: asynchat appends it to the collected data
(`collect_incoming_data`) and fires `found_terminator` once exactly
`terminator` bytes have been collected (a terminator of `0` never fires). -/
def readerFeed (s : ReaderState) (b : Nat) : ReaderState :=
  let s1 : ReaderState := { s with ibuffer := s.ibuffer ++ [b] }
  if s1.ibuffer.length = s1.terminator then found_terminator s1 else s1

/-- Feed a whole byte string to the reader. -/
def runReader (s : ReaderState) (bs : List Nat) : ReaderState :=
  bs.foldl readerFeed s

/-! ## Envelope construction (client.py, `AbstractClient`)

`request`, `publish` and `reply_to` guard their optional payload with the
Python truthiness test `if data:` (false for `None` and for `b""`), and
`request` guards the identification with `if identification:` (false for
`None` and for `""`). -/

/-- The enum `Reply.Error.Type` values tested by `SynClient.request`
(`Timeout`, `NoSuchService`, `NoSuchMethod`, `BadArguments`), plus the
catch-all for every other value. -/
inductive ErrorType where
  | Timeout
  | NoSuchService
  | NoSuchMethod
  | BadArguments
  | Custom
  deriving Repr, DecidableEq

/-- `Reply.Error`: an error type and an optional detail (`what`). -/
structure ReplyErrorDetail where
  type : ErrorType
  what : Option (List Nat)
  deriving Repr, DecidableEq

/-- The `Request` payload: fields set by `AbstractClient.request`.
Optional protobuf fields are `Option` (absent vs present). -/
structure RequestMsg where
  id : Nat
  service_name : String
  service_identification : Option String
  method : String
  data : Option (List Nat)
  deriving Repr, DecidableEq

/-- The `Reply` payload. -/
structure ReplyMsg where
  id : Nat
  data : Option (List Nat)
  error : Option ReplyErrorDetail
  deriving Repr, DecidableEq

/-- The `Publish` payload. -/
structure PublishMsg where
  event : String
  data : Option (List Nat)
  deriving Repr, DecidableEq

/-- `if data: x.data = data` — the field stays absent for `None` and for an
empty byte string (both are falsy in Python). -/
def setDataField : Option (List Nat) → Option (List Nat)
  | some bs => if bs.isEmpty then none else some bs
  | none => none

/-- `if identification: x.service_identification = identification` — absent
for `None` and for the empty string. -/
def setIdentField : Option String → Option String
  | some s => if s.isEmpty then none else some s
  | none => none

namespace AbstractClient

/-- `AbstractClient.request` (client.py:131-154): build the Request envelope
from the current `_request_seq_id`, set `id` to it and increment the
counter. Returns the envelope and the new counter. -/
def request (seq : Nat) (method service : String) (identification : Option String)
    (data : Option (List Nat)) : RequestMsg × Nat :=
  ({ id := seq
     service_name := service
     service_identification := setIdentField identification
     method := method
     data := setDataField data }, seq + 1)

/-- `AbstractClient.publish` (client.py:156-171). -/
def publish (event : String) (data : Option (List Nat)) : PublishMsg :=
  { event := event, data := setDataField data }

/-- `AbstractClient.reply_to` (client.py:90-98). -/
def reply_to (reqId : Nat) (data : Option (List Nat)) : ReplyMsg :=
  { id := reqId, data := setDataField data, error := none }

/-- `AbstractClient.reply_error_to` (client.py:100-111): note `what` is
guarded by `is not None`, not truthiness, so it is forwarded as-is. -/
def reply_error_to (reqId : Nat) (etype : ErrorType) (what : Option (List Nat)) : ReplyMsg :=
  { id := reqId, data := none, error := some { type := etype, what := what } }

/-- The ids produced by successive `AbstractClient.request` calls with the
given argument tuples, starting from counter value `seq` (the counter is
seeded once, in `AbstractClient.__init__`, with `random.randrange(0, 2**32)`
and only ever bumped by `request`). -/
def allocIds (seq : Nat) :
    List (String × String × Option String × Option (List Nat)) → List Nat
  | [] => []
  | (m, s, i, d) :: rest =>
    let (req, seq1) := request seq m s i d
    req.id :: allocIds seq1 rest

end AbstractClient

/-! ## The blocking request loop (client.py, `SynClient.request`) -/

/-- An incoming envelope as seen by the read loop of `SynClient.request`:
either a `Reply` payload, or a `Message` of any other type (identified only
by its type tag, which the loop logs and drops). -/
inductive WireMsg where
  | reply (r : ReplyMsg)
  | other (typeTag : Nat)
  deriving Repr, DecidableEq

/-- Control-flow outcome of `SynClient.request`: a normal return or one of
the exceptions raised from the reply error branch. -/
inductive RequestOutcome where
  | ok (data : Option (List Nat))
  | raiseRequestTimeout
  | raiseNoSuchService (service : String)
  | raiseNoSuchMethod (service method : String)
  | raiseBadArguments
  | raiseReplyError
  deriving Repr, DecidableEq

/-- Does this wire message carry the `Reply` the loop is waiting for? -/
def isReplyFor (reqId : Nat) : WireMsg → Bool
  | WireMsg.reply r => r.id == reqId
  | WireMsg.other _ => false

/-- The `while True` read loop of `SynClient.request` (client.py:214-263):
drop non-`Reply` envelopes and replies with the wrong id; on the first
reply with the matching id, raise per `reply.error.type` or return
`reply.data` (`None` when the field is absent). `none` means the incoming
stream was exhausted with the loop still blocked. -/
def synWait (reqId : Nat) (method service : String) : List WireMsg → Option RequestOutcome
  | [] => none
  | WireMsg.other _ :: rest => synWait reqId method service rest
  | WireMsg.reply r :: rest =>
    if r.id = reqId then
      some (match r.error with
        | none => RequestOutcome.ok r.data
        | some err =>
          match err.type with
          | ErrorType.Timeout => RequestOutcome.raiseRequestTimeout
          | ErrorType.NoSuchService => RequestOutcome.raiseNoSuchService service
          | ErrorType.NoSuchMethod => RequestOutcome.raiseNoSuchMethod service method
          | ErrorType.BadArguments => RequestOutcome.raiseBadArguments
          | ErrorType.Custom => RequestOutcome.raiseReplyError)
    else synWait reqId method service rest

namespace SynClient

/-- `SynClient.request` (client.py:203-263): send the request built by
`AbstractClient.request` (allocating a fresh id), then run the blocking
read loop over the incoming envelope stream. -/
def request (seq : Nat) (method service : String) (identification : Option String)
    (data : Option (List Nat)) (incoming : List WireMsg) :
    RequestMsg × Nat × Option RequestOutcome :=
  let (req, seq1) := AbstractClient.request seq method service identification data
  (req, seq1, synWait req.id method service incoming)

end SynClient

/-! ## Request dispatch (service.py, `Service.on_request`)

`Service._decode_data` tries to decode request bytes as JSON and *catches*
`UnicodeDecodeError`/`ValueError`, returning the raw bytes instead (the
source comments call this a feature for talking to non-JSON services).
`on_request` checks the identification filter, looks up the action table,
decodes the data, guesses positional/keyword argument passing from the
decoded type, invokes the handler and sends exactly one reply. -/

/-- A Python value as produced by `json.loads`, plus `pybytes` for the raw
bytes that `_decode_data` returns when decoding fails. -/
inductive PyValue where
  | pylist (xs : List PyValue)
  | pydict (fields : List (String × PyValue))
  | pystr (s : String)
  | pyint (n : Int)
  | pybool (b : Bool)
  | pynone
  | pybytes (bs : List Nat)
  deriving Repr

/-- `str.encode`: the bytes of a Python string (used for the `what` detail
of error replies). -/
def strBytes (s : String) : List Nat :=
  s.toUTF8.toList.map (fun b => b.toNat)

/-- `Service._decode_data` (service.py:363-373). `jsonDecode` stands for
`data.decode()` followed by `json.loads`; `none` models the
`UnicodeDecodeError`/`ValueError` that the `except` clause catches, upon
which the raw bytes are returned unchanged. This function is total: it
never propagates a decode failure. -/
def decode_data (jsonDecode : List Nat → Option PyValue) (data : List Nat) : PyValue :=
  match jsonDecode data with
  | some v => v
  | none => PyValue.pybytes data

/-- `Service._decode_msg_data` (service.py:355-361): decode the `data`
field if present, else `{}`. -/
def decode_msg_data (jsonDecode : List Nat → Option PyValue) :
    Option (List Nat) → PyValue
  | some bs => decode_data jsonDecode bs
  | none => PyValue.pydict []

/-- A bound action handler: positional args, keyword args, and either a
raised exception (with its `str(e)` text) or a returned value (`none` for
Python `None`). -/
def Handler : Type :=
  List PyValue → List (String × PyValue) → Except String (Option PyValue)

/-- service.py:524-557: run the handler outcome into the single reply that
`on_request` sends: a caught exception becomes a `Custom` error reply; a
`None` return a data-less reply; otherwise the value is JSON-encoded
(`jsonEncode`; a raised serialization error is caught by the same `except`
and also becomes a `Custom` error reply). -/
def handlerReply (reqId : Nat) (jsonEncode : PyValue → Except String (List Nat))
    (result : Except String (Option PyValue)) : ReplyMsg :=
  match result with
  | Except.error e => AbstractClient.reply_error_to reqId ErrorType.Custom (some (strBytes e))
  | Except.ok none => AbstractClient.reply_to reqId none
  | Except.ok (some v) =>
    match jsonEncode v with
    | Except.error e => AbstractClient.reply_error_to reqId ErrorType.Custom (some (strBytes e))
    | Except.ok bs => AbstractClient.reply_to reqId (some bs)

/-- `Service.on_request` (service.py:496-557), as the list of `Reply`
envelopes it sends. Identification mismatch: drop silently (no reply).
Unknown method: one `NoSuchMethod` error reply. Then the data is decoded
with `_decode_msg_data` — which cannot raise in this model, so the
`BadArguments` branch of the source (service.py:515-521) is unreachable —
argument passing is guessed from the decoded type (list → positional,
dict → keyword, anything else → one positional argument), and the handler
outcome produces exactly one reply. -/
def on_request (identification : Option String) (actions : List (String × Handler))
    (jsonDecode : List Nat → Option PyValue)
    (jsonEncode : PyValue → Except String (List Nat))
    (req : RequestMsg) : List ReplyMsg :=
  if req.service_identification.isSome = true
      ∧ req.service_identification ≠ identification then
    []
  else
    match List.lookup req.method actions with
    | none =>
      [AbstractClient.reply_error_to req.id ErrorType.NoSuchMethod
        (some (strBytes req.method))]
    | some callback =>
      let data := decode_msg_data jsonDecode req.data
      let argpair : List PyValue × List (String × PyValue) :=
        match data with
        | PyValue.pylist xs => (xs, [])
        | PyValue.pydict m => ([], m)
        | d => ([d], [])
      [handlerReply req.id jsonEncode (callback argpair.1 argpair.2)]

/-! ## Publish dispatch wrapper (service.py, `_setup_asynchronous._event_wrap`)

The wrapper built for every subscribed event handler. Note that
`kwargs = json.loads(data.decode())` stands *outside* the `try` block: only
the handler call `fun(**kwargs)` is guarded (its exceptions are caught and
reported via `self.log_exc()`). -/

/-- Outcome of one `_wrap(data)` call. -/
inductive EventWrapOutcome where
  | raisedDecodeError
  | handlerReturned (kwargs : List (String × PyValue))
  | caughtException
  deriving Repr

/-- `_event_wrap`'s `_wrap` (service.py:837-852). `if data:` is falsy for
`None` and empty bytes, giving `kwargs = {}`; otherwise the data is decoded
with plain `json.loads` — a decode failure raises out of the wrapper
(`raisedDecodeError`), it is *not* caught. A decoded non-dict makes
`fun(**kwargs)` raise a `TypeError` inside the `try`, which is caught, as
is any exception from the handler itself. -/
def event_wrap (jsonDecode : List Nat → Option PyValue)
    (handler : List (String × PyValue) → Except String Unit)
    (data : Option (List Nat)) : EventWrapOutcome :=
  let run : PyValue → EventWrapOutcome := fun v =>
    match v with
    | PyValue.pydict m =>
      match handler m with
      | Except.ok _ => EventWrapOutcome.handlerReturned m
      | Except.error _ => EventWrapOutcome.caughtException
    | _ => EventWrapOutcome.caughtException
  match data with
  | none => run (PyValue.pydict [])
  | some bs =>
    if bs.isEmpty then run (PyValue.pydict [])
    else
      match jsonDecode bs with
      | none => EventWrapOutcome.raisedDecodeError
      | some v => run v

/-! ## Dependency wait (service.py, `Service._setup_dependencies`) -/

/-- An envelope returned by one blocking read inside the waiting loop,
already classified the way the loop does: a `Publish` on
`log.cellaserv.new-service` with its decoded `{Name, Identification}`
payload, a `Publish` on any other event (logged and dropped), or a message
of any other type (logged and dropped). -/
inductive DepMsg where
  | newService (name ident : String)
  | otherPublish (event : String)
  | otherMessage (typeTag : Nat)
  deriving Repr, DecidableEq

/-- Externally visible steps of `_setup_dependencies`, in execution order:
the initial `subscribe`, the blocking `list-services` request, each
dependency observed as registered (removed from the waiting set), and each
completion callback run (identified by a label). -/
inductive DepAction where
  | subscribe (event : String)
  | listServices
  | observed (dep : String × String)
  | callback (tag : Nat)
  deriving Repr, DecidableEq

/-- The listing phase (service.py:789-794): walk the decoded
`list-services` reply and discard every entry from the waiting set, the
`KeyError` for entries not waited on being swallowed. Returns the
dependencies observed registered (in order) and the remaining set. -/
def removeListed : List (String × String) → List (String × String) →
    List (String × String) × List (String × String)
  | remaining, [] => ([], remaining)
  | remaining, s :: rest =>
    if s ∈ remaining then
      let p := removeListed (remaining.erase s) rest
      (s :: p.1, p.2)
    else removeListed remaining rest

/-- The waiting loop (service.py:797-821): while the set is non-empty, do a
blocking read; a `new-service` publish naming a waited-on pair removes it,
everything else is logged and dropped. Returns the removed pairs in order,
or `none` if the message stream is exhausted first (the loop then blocks
forever). -/
def waitDeps : List (String × String) → List DepMsg → Option (List (String × String))
  | remaining, [] => if remaining.isEmpty then some [] else none
  | remaining, m :: rest =>
    if remaining.isEmpty then some []
    else
      match m with
      | DepMsg.newService n i =>
        if (n, i) ∈ remaining then
          (waitDeps (remaining.erase (n, i)) rest).map (fun obs => (n, i) :: obs)
        else waitDeps remaining rest
      | DepMsg.otherPublish _ => waitDeps remaining rest
      | DepMsg.otherMessage _ => waitDeps remaining rest

/-- The final phase (service.py:823-826): run every completion callback of
every dependency, in table order. -/
def dependencyCallbacks (deps : List ((String × String) × List Nat)) : List DepAction :=
  (deps.map (fun d => d.2.map DepAction.callback)).flatten

/-- `Service._setup_dependencies` (service.py:752-826), as the trace of its
externally visible steps: return early on an empty dependency table;
otherwise subscribe to `log.cellaserv.new-service` *first*, then issue the
blocking `list-services` request and discard already-registered pairs, then
run the waiting loop until the set drains, then run all completion
callbacks. `none` models the loop blocking forever.

The blocking read is `syn_client.read_message()`, which `SynClient` in
src/cellaserv/client.py does not define (its callers in service.py,
cellasend.py, cellaquery.py and the examples expect it). Modelled from the
spec: `read_message` blocks reading the connection and returns the next
incoming envelope; `msgs` is the stream of envelopes it yields. -/
def setup_dependencies (deps : List ((String × String) × List Nat))
    (registered : List (String × String)) (msgs : List DepMsg) :
    Option (List DepAction) :=
  if deps.isEmpty then some []
  else
    let unregistered := deps.map Prod.fst
    let p := removeListed unregistered registered
    match waitDeps p.2 msgs with
    | none => none
    | some obs2 =>
      some (DepAction.subscribe "log.cellaserv.new-service" ::
            DepAction.listServices ::
            ((p.1 ++ obs2).map DepAction.observed ++ dependencyCallbacks deps))

/-! ## Helper lemmas -/

lemma runReader_append (s : ReaderState) (xs ys : List Nat) :
    runReader s (xs ++ ys) = runReader (runReader s xs) ys := by
  simp [runReader]

lemma unpack_pack (n : Nat) (h : n < 4294967296) :
    unpackUInt32BE (packUInt32BE n) = n := by
  simp [unpackUInt32BE, packUInt32BE]
  omega

lemma runReader_header (n : Nat) (d : List (List Nat)) (h : n < 4294967296) :
    runReader { read_header := true, terminator := 4, ibuffer := [], delivered := d }
        (packUInt32BE n) =
      { read_header := false, terminator := n, ibuffer := [], delivered := d } := by
  simp [packUInt32BE, runReader, readerFeed, found_terminator, unpackUInt32BE]
  omega

lemma runReader_body (xs : List Nat) (buf : List Nat) (d : List (List Nat)) (L : Nat)
    (hlen : buf.length + xs.length = L) (hne : xs ≠ []) :
    runReader { read_header := false, terminator := L, ibuffer := buf, delivered := d } xs =
      { read_header := true, terminator := 4, ibuffer := [],
        delivered := d ++ [buf ++ xs] } := by
  induction xs generalizing buf with
  | nil => exact absurd rfl hne
  | cons x rest ih =>
    by_cases hrest : rest = []
    · subst hrest
      have hL : buf.length + 1 = L := by simpa using hlen
      simp [runReader, readerFeed, found_terminator, hL]
    · have hlt : buf.length + 1 ≠ L := by
        have : 0 < rest.length := List.length_pos.mpr hrest
        simp at hlen
        omega
      have step : runReader
          { read_header := false, terminator := L, ibuffer := buf, delivered := d }
          (x :: rest) =
          runReader
            { read_header := false, terminator := L, ibuffer := buf ++ [x], delivered := d }
            rest := by
        simp [runReader, readerFeed, hlt]
      rw [step, ih (buf ++ [x]) (by simp at hlen ⊢; omega) hrest]
      simp

namespace AbstractClient

lemma allocIds_cons (seq : Nat) (m s : String) (i : Option String)
    (d : Option (List Nat)) (rest : List (String × String × Option String × Option (List Nat))) :
    allocIds seq ((m, s, i, d) :: rest) = seq :: allocIds (seq + 1) rest := rfl

lemma allocIds_mem_le (calls : List (String × String × Option String × Option (List Nat))) :
    ∀ seq x, x ∈ allocIds seq calls → seq ≤ x := by
  induction calls with
  | nil => intro seq x hx; simp [allocIds] at hx
  | cons c rest ih =>
    intro seq x hx
    obtain ⟨m, s, i, d⟩ := c
    rw [allocIds_cons] at hx
    rcases List.mem_cons.mp hx with h | h
    · omega
    · have := ih (seq + 1) x h
      omega

end AbstractClient

lemma synWait_skip (reqId : Nat) (method service : String) (junk rest : List WireMsg)
    (h : ∀ m ∈ junk, isReplyFor reqId m = false) :
    synWait reqId method service (junk ++ rest) = synWait reqId method service rest := by
  induction junk with
  | nil => rfl
  | cons m junk ih =>
    have hm := h m (by simp)
    have hrest : ∀ m ∈ junk, isReplyFor reqId m = false :=
      fun x hx => h x (by simp [hx])
    cases m with
    | other t => simpa [synWait] using ih hrest
    | reply r =>
      have : ¬ r.id = reqId := by
        simpa [isReplyFor] using hm
      simpa [synWait, this] using ih hrest

lemma removeListed_covers (registered : List (String × String)) :
    ∀ remaining x, x ∈ remaining →
      x ∈ (removeListed remaining registered).1 ∨ x ∈ (removeListed remaining registered).2 := by
  induction registered with
  | nil => intro remaining x hx; simp [removeListed, hx]
  | cons s rest ih =>
    intro remaining x hx
    by_cases hmem : s ∈ remaining
    · by_cases hxs : x = s
      · subst hxs
        simp [removeListed, hmem]
      · have hx' : x ∈ remaining.erase s := List.mem_erase_of_ne hxs |>.mpr hx
        rcases ih (remaining.erase s) x hx' with h | h
        · exact Or.inl (by simp [removeListed, hmem, h])
        · exact Or.inr (by simp [removeListed, hmem, h])
    · rcases ih remaining x hx with h | h
      · exact Or.inl (by simp [removeListed, hmem, h])
      · exact Or.inr (by simp [removeListed, hmem, h])

lemma waitDeps_covers (msgs : List DepMsg) :
    ∀ remaining obs, waitDeps remaining msgs = some obs →
      ∀ x ∈ remaining, x ∈ obs := by
  induction msgs with
  | nil =>
    intro remaining obs h x hx
    by_cases hemp : remaining.isEmpty
    · rw [List.isEmpty_iff] at hemp
      subst hemp
      simp at hx
    · simp [waitDeps, hemp] at h
  | cons m rest ih =>
    intro remaining obs h x hx
    by_cases hemp : remaining.isEmpty
    · rw [List.isEmpty_iff] at hemp
      subst hemp
      simp at hx
    · cases m with
      | newService n i =>
        rw [show waitDeps remaining (DepMsg.newService n i :: rest) =
            (if remaining.isEmpty then some [] else
              if (n, i) ∈ remaining then
                (waitDeps (remaining.erase (n, i)) rest).map (fun obs => (n, i) :: obs)
              else waitDeps remaining rest) from rfl] at h
        rw [if_neg hemp] at h
        by_cases hmem : (n, i) ∈ remaining
        · rw [if_pos hmem, Option.map_eq_some'] at h
          obtain ⟨obs1, h1, h2⟩ := h
          subst h2
          by_cases hxni : x = (n, i)
          · subst hxni; simp
          · have hx' : x ∈ remaining.erase (n, i) :=
              List.mem_erase_of_ne hxni |>.mpr hx
            exact List.mem_cons_of_mem _ (ih _ _ h1 x hx')
        · rw [if_neg hmem] at h
          exact ih _ _ h x hx
      | otherPublish e =>
        rw [show waitDeps remaining (DepMsg.otherPublish e :: rest) =
            (if remaining.isEmpty then some [] else waitDeps remaining rest) from rfl,
          if_neg hemp] at h
        exact ih _ _ h x hx
      | otherMessage t =>
        rw [show waitDeps remaining (DepMsg.otherMessage t :: rest) =
            (if remaining.isEmpty then some [] else waitDeps remaining rest) from rfl,
          if_neg hemp] at h
        exact ih _ _ h x hx

/-! ## Claim theorems -/

/-- C4: for every valid envelope (a serialized envelope byte string of
positive length below 2^32), decoding the binary framing — the 4-byte
big-endian length prefix written by `_send_message`, reassembled by the
two-phase header/body reader of `found_terminator` — yields exactly the
original envelope bytes, with the reader back in its initial phase. -/
theorem framing_round_trip (msg : List Nat) (hpos : 0 < msg.length)
    (hlen : msg.length < 4294967296) :
    runReader initReader (send_message msg) =
      { read_header := true, terminator := 4, ibuffer := [], delivered := [msg] } := by
  rw [send_message, runReader_append,
    show initReader =
      { read_header := true, terminator := 4, ibuffer := [], delivered := [] } from rfl,
    runReader_header msg.length [] hlen]
  have hne : msg ≠ [] := by
    intro h
    rw [h] at hpos
    simp at hpos
  simpa using runReader_body msg [] [] msg.length (by simp) hne

/-- C4 witness: the concrete envelope bytes `[7, 8, 9]` round-trip. -/
theorem framing_round_trip_witness :
    0 < ([7, 8, 9] : List Nat).length
    ∧ ([7, 8, 9] : List Nat).length < 4294967296
    ∧ runReader initReader (send_message [7, 8, 9]) =
        { read_header := true, terminator := 4, ibuffer := [], delivered := [[7, 8, 9]] } :=
  ⟨by decide, by decide, framing_round_trip [7, 8, 9] (by decide) (by decide)⟩

/-- C5: the ids allocated by any sequence of `request` calls on one client
(counter seeded once at construction, incremented by one per request) are
pairwise distinct. -/
theorem request_ids_nodup (seq : Nat)
    (calls : List (String × String × Option String × Option (List Nat))) :
    (AbstractClient.allocIds seq calls).Nodup := by
  induction calls generalizing seq with
  | nil => simp [AbstractClient.allocIds]
  | cons c rest ih =>
    obtain ⟨m, s, i, d⟩ := c
    rw [AbstractClient.allocIds_cons]
    refine List.nodup_cons.mpr ⟨?_, ih (seq + 1)⟩
    intro hmem
    have := AbstractClient.allocIds_mem_le rest (seq + 1) seq hmem
    omega

/-- C1: every Request that passes the identification filter and so reaches
dispatch gets exactly one Reply sent — whether or not the method exists in
the action table, whatever the request data decodes to, and whether or not
the handler (or the reply serialization) throws. -/
theorem on_request_exactly_one_reply
    (identification : Option String) (actions : List (String × Handler))
    (jsonDecode : List Nat → Option PyValue)
    (jsonEncode : PyValue → Except String (List Nat)) (req : RequestMsg)
    (hident : ¬(req.service_identification.isSome = true
      ∧ req.service_identification ≠ identification)) :
    (on_request identification actions jsonDecode jsonEncode req).length = 1 := by
  rw [show on_request identification actions jsonDecode jsonEncode req =
      (if req.service_identification.isSome = true
          ∧ req.service_identification ≠ identification then
        []
      else
        match List.lookup req.method actions with
        | none =>
          [AbstractClient.reply_error_to req.id ErrorType.NoSuchMethod
            (some (strBytes req.method))]
        | some callback =>
          let data := decode_msg_data jsonDecode req.data
          let argpair : List PyValue × List (String × PyValue) :=
            match data with
            | PyValue.pylist xs => (xs, [])
            | PyValue.pydict m => ([], m)
            | d => ([d], [])
          [handlerReply req.id jsonEncode (callback argpair.1 argpair.2)]) from rfl,
    if_neg hident]
  cases List.lookup req.method actions <;> rfl

/-- C1 witness: a request for an unknown method on a service whose
identification matches gets exactly one reply. -/
theorem on_request_exactly_one_reply_witness :
    ¬((some "id" : Option String).isSome = true ∧ (some "id" : Option String) ≠ some "id")
    ∧ (on_request (some "id") [] (fun _ => none) (fun _ => Except.error "e")
        { id := 3, service_name := "s", service_identification := some "id",
          method := "m", data := none }).length = 1 :=
  ⟨by simp, on_request_exactly_one_reply (some "id") [] (fun _ => none)
    (fun _ => Except.error "e")
    { id := 3, service_name := "s", service_identification := some "id",
      method := "m", data := none } (by simp)⟩

/-- C3: a blocking `SynClient.request` sends a Request with a fresh id (the
current counter value), drops every non-Reply envelope and every Reply with
a different id, and on the first Reply with the matching id returns its
data when there is no error, else raises `RequestTimeout` /
`NoSuchService` / `NoSuchMethod` / `BadArguments` per the reported error
type and a generic reply error for any other type. -/
theorem syn_request_first_matching_reply
    (seq : Nat) (method service : String) (identification : Option String)
    (data : Option (List Nat)) (junk : List WireMsg) (r : ReplyMsg) (rest : List WireMsg)
    (hjunk : ∀ m ∈ junk, isReplyFor seq m = false) (hid : r.id = seq) :
    SynClient.request seq method service identification data
        (junk ++ WireMsg.reply r :: rest) =
      ((AbstractClient.request seq method service identification data).1, seq + 1,
        some (match r.error with
          | none => RequestOutcome.ok r.data
          | some err =>
            match err.type with
            | ErrorType.Timeout => RequestOutcome.raiseRequestTimeout
            | ErrorType.NoSuchService => RequestOutcome.raiseNoSuchService service
            | ErrorType.NoSuchMethod => RequestOutcome.raiseNoSuchMethod service method
            | ErrorType.BadArguments => RequestOutcome.raiseBadArguments
            | ErrorType.Custom => RequestOutcome.raiseReplyError)) := by
  rw [show SynClient.request seq method service identification data
        (junk ++ WireMsg.reply r :: rest) =
      ((AbstractClient.request seq method service identification data).1, seq + 1,
        synWait seq method service (junk ++ WireMsg.reply r :: rest)) from rfl,
    synWait_skip seq method service junk _ hjunk]
  simp [synWait, hid]

/-- C3 witness: with two stale envelopes ahead of it, the matching reply
with data `[49]` is returned. -/
theorem syn_request_first_matching_reply_witness :
    (∀ m ∈ [WireMsg.other 2, WireMsg.reply { id := 9, data := none, error := none }],
        isReplyFor 3 m = false)
    ∧ ({ id := 3, data := some [49], error := none } : ReplyMsg).id = 3
    ∧ SynClient.request 3 "time" "date" none none
        ([WireMsg.other 2, WireMsg.reply { id := 9, data := none, error := none }] ++
          WireMsg.reply { id := 3, data := some [49], error := none } ::
            [WireMsg.reply { id := 3, data := some [50], error := none }]) =
      ({ id := 3, service_name := "date", service_identification := none,
         method := "time", data := none }, 4, some (RequestOutcome.ok (some [49]))) :=
  ⟨by decide, rfl,
    syn_request_first_matching_reply 3 "time" "date" none none
      [WireMsg.other 2, WireMsg.reply { id := 9, data := none, error := none }]
      { id := 3, data := some [49], error := none }
      [WireMsg.reply { id := 3, data := some [50], error := none }]
      (by decide) rfl⟩

/-- C9: a blocking request whose matching Reply carries no error and no
data field evaluates to the no-data result (`None`), which is distinct
from the result for a Reply carrying empty (or any) present bytes. -/
theorem syn_request_no_data_returns_none
    (seq : Nat) (method service : String) (identification : Option String)
    (data : Option (List Nat)) (junk rest : List WireMsg)
    (hjunk : ∀ m ∈ junk, isReplyFor seq m = false) :
    (SynClient.request seq method service identification data
        (junk ++ WireMsg.reply { id := seq, data := none, error := none } :: rest)).2.2 =
      some (RequestOutcome.ok none)
    ∧ ∀ bs : List Nat, RequestOutcome.ok none ≠ RequestOutcome.ok (some bs) := by
  constructor
  · rw [show (SynClient.request seq method service identification data
          (junk ++ WireMsg.reply { id := seq, data := none, error := none } :: rest)).2.2 =
        synWait seq method service
          (junk ++ WireMsg.reply { id := seq, data := none, error := none } :: rest) from rfl,
      synWait_skip seq method service junk _ hjunk]
    simp [synWait]
  · intro bs h
    simp at h

/-- C9 witness. -/
theorem syn_request_no_data_returns_none_witness :
    (∀ m ∈ [WireMsg.other 1], isReplyFor 5 m = false)
    ∧ ((SynClient.request 5 "m" "s" none none
          ([WireMsg.other 1] ++
            WireMsg.reply { id := 5, data := none, error := none } :: [])).2.2 =
        some (RequestOutcome.ok none)
      ∧ ∀ bs : List Nat, RequestOutcome.ok none ≠ RequestOutcome.ok (some bs)) :=
  ⟨by decide,
    syn_request_no_data_returns_none 5 "m" "s" none none [WireMsg.other 1] [] (by decide)⟩

/-- C6 counterexample: a Request for an existing method whose data bytes
fail to decode (`jsonDecode` returns `none` on `[255]`, modelling invalid
UTF-8/JSON) does *not* get a `BadArguments` error reply and the handler
*is* invoked: `_decode_data` swallows the failure and returns the raw
bytes, so the single reply sent is the handler's success reply. -/
theorem undecodable_request_counterexample :
    on_request none [("m", fun _ _ => Except.ok (some (PyValue.pyint 1)))]
        (fun _ => none) (fun _ => Except.ok [49])
        { id := 7, service_name := "s", service_identification := none,
          method := "m", data := some [255] } =
      [{ id := 7, data := some [49], error := none }]
    ∧ AbstractClient.reply_error_to 7 ErrorType.BadArguments (some [255]) ∉
        on_request none [("m", fun _ _ => Except.ok (some (PyValue.pyint 1)))]
          (fun _ => none) (fun _ => Except.ok [49])
          { id := 7, service_name := "s", service_identification := none,
            method := "m", data := some [255] } :=
  ⟨rfl, by decide⟩

/-- C6 amended: for every Request that passes the identification filter,
whose method exists in the action table and whose data bytes fail to
decode, `_decode_data` returns the raw bytes unchanged and `on_request`
invokes the handler with them as a single positional argument and no
keyword arguments; the one Reply sent is determined by the handler's
outcome, and the `BadArguments` branch is never taken for such data. -/
theorem undecodable_request_raw_passthrough
    (identification : Option String) (actions : List (String × Handler))
    (jsonDecode : List Nat → Option PyValue)
    (jsonEncode : PyValue → Except String (List Nat)) (req : RequestMsg)
    (cb : Handler) (bs : List Nat)
    (hident : ¬(req.service_identification.isSome = true
      ∧ req.service_identification ≠ identification))
    (hlookup : List.lookup req.method actions = some cb)
    (hdata : req.data = some bs) (hdec : jsonDecode bs = none) :
    on_request identification actions jsonDecode jsonEncode req =
      [handlerReply req.id jsonEncode (cb [PyValue.pybytes bs] [])] := by
  rw [show on_request identification actions jsonDecode jsonEncode req =
      (if req.service_identification.isSome = true
          ∧ req.service_identification ≠ identification then
        []
      else
        match List.lookup req.method actions with
        | none =>
          [AbstractClient.reply_error_to req.id ErrorType.NoSuchMethod
            (some (strBytes req.method))]
        | some callback =>
          let data := decode_msg_data jsonDecode req.data
          let argpair : List PyValue × List (String × PyValue) :=
            match data with
            | PyValue.pylist xs => (xs, [])
            | PyValue.pydict m => ([], m)
            | d => ([d], [])
          [handlerReply req.id jsonEncode (callback argpair.1 argpair.2)]) from rfl,
    if_neg hident, hlookup, hdata]
  simp only [decode_msg_data, decode_data, hdec]

/-- C6 amended witness: the handler receives the raw bytes `[255]` and its
exception text becomes the `Custom` error reply. -/
theorem undecodable_request_raw_passthrough_witness :
    ¬((none : Option String).isSome = true ∧ (none : Option String) ≠ none)
    ∧ List.lookup "m"
        [("m", (fun args _ =>
          match args with
          | [PyValue.pybytes _] => Except.error "raw"
          | _ => Except.ok none : Handler))] =
      some (fun args _ =>
          match args with
          | [PyValue.pybytes _] => Except.error "raw"
          | _ => Except.ok none : Handler)
    ∧ ({ id := 7, service_name := "s", service_identification := none,
         method := "m", data := some [255] } : RequestMsg).data = some [255]
    ∧ (fun _ => (none : Option PyValue)) [255] = none
    ∧ on_request none
        [("m", (fun args _ =>
          match args with
          | [PyValue.pybytes _] => Except.error "raw"
          | _ => Except.ok none : Handler))]
        (fun _ => none) (fun _ => Except.ok [])
        { id := 7, service_name := "s", service_identification := none,
          method := "m", data := some [255] } =
      [handlerReply 7 (fun _ => Except.ok [])
        ((fun args _ =>
          match args with
          | [PyValue.pybytes _] => Except.error "raw"
          | _ => Except.ok none : Handler) [PyValue.pybytes [255]] [])] :=
  ⟨by simp, rfl, rfl, rfl,
    undecodable_request_raw_passthrough none
      [("m", (fun args _ =>
        match args with
        | [PyValue.pybytes _] => Except.error "raw"
        | _ => Except.ok none : Handler))]
      (fun _ => none) (fun _ => Except.ok [])
      { id := 7, service_name := "s", service_identification := none,
        method := "m", data := some [255] }
      (fun args _ =>
        match args with
        | [PyValue.pybytes _] => Except.error "raw"
        | _ => Except.ok none : Handler)
      [255] (by simp) rfl rfl rfl⟩

/-- C10: a Request whose decoded data is neither a list nor a dict (a JSON
number or string, or raw bytes from a failed decode) makes `on_request`
invoke the handler with that value as a single positional argument and no
keyword arguments; the reply is determined by the handler's outcome. -/
theorem scalar_data_single_positional_arg
    (identification : Option String) (actions : List (String × Handler))
    (jsonDecode : List Nat → Option PyValue)
    (jsonEncode : PyValue → Except String (List Nat)) (req : RequestMsg)
    (cb : Handler) (v : PyValue)
    (hident : ¬(req.service_identification.isSome = true
      ∧ req.service_identification ≠ identification))
    (hlookup : List.lookup req.method actions = some cb)
    (hdec : decode_msg_data jsonDecode req.data = v)
    (hnlist : ∀ xs, v ≠ PyValue.pylist xs)
    (hndict : ∀ m, v ≠ PyValue.pydict m) :
    on_request identification actions jsonDecode jsonEncode req =
      [handlerReply req.id jsonEncode (cb [v] [])] := by
  rw [show on_request identification actions jsonDecode jsonEncode req =
      (if req.service_identification.isSome = true
          ∧ req.service_identification ≠ identification then
        []
      else
        match List.lookup req.method actions with
        | none =>
          [AbstractClient.reply_error_to req.id ErrorType.NoSuchMethod
            (some (strBytes req.method))]
        | some callback =>
          let data := decode_msg_data jsonDecode req.data
          let argpair : List PyValue × List (String × PyValue) :=
            match data with
            | PyValue.pylist xs => (xs, [])
            | PyValue.pydict m => ([], m)
            | d => ([d], [])
          [handlerReply req.id jsonEncode (callback argpair.1 argpair.2)]) from rfl,
    if_neg hident, hlookup, hdec]
  cases v with
  | pylist xs => exact absurd rfl (hnlist xs)
  | pydict m => exact absurd rfl (hndict m)
  | pystr s => rfl
  | pyint n => rfl
  | pybool b => rfl
  | pynone => rfl
  | pybytes b => rfl

/-- C10 witness: data decoding to the JSON number `3` reaches the handler
as the single positional argument. -/
theorem scalar_data_single_positional_arg_witness :
    ¬((none : Option String).isSome = true ∧ (none : Option String) ≠ none)
    ∧ List.lookup "m" [("m", (fun _ _ => Except.ok none : Handler))] =
        some (fun _ _ => Except.ok none : Handler)
    ∧ decode_msg_data (fun _ => some (PyValue.pyint 3))
        (({ id := 7, service_name := "s", service_identification := none,
            method := "m", data := some [51] } : RequestMsg).data) = PyValue.pyint 3
    ∧ (∀ xs, PyValue.pyint 3 ≠ PyValue.pylist xs)
    ∧ (∀ m, PyValue.pyint 3 ≠ PyValue.pydict m)
    ∧ on_request none [("m", (fun _ _ => Except.ok none : Handler))]
        (fun _ => some (PyValue.pyint 3)) (fun _ => Except.error "x")
        { id := 7, service_name := "s", service_identification := none,
          method := "m", data := some [51] } =
      [handlerReply 7 (fun _ => Except.error "x")
        ((fun _ _ => Except.ok none : Handler) [PyValue.pyint 3] [])] :=
  ⟨by simp, rfl, rfl,
    fun xs h => PyValue.noConfusion h,
    fun m h => PyValue.noConfusion h,
    scalar_data_single_positional_arg none [("m", (fun _ _ => Except.ok none : Handler))]
      (fun _ => some (PyValue.pyint 3)) (fun _ => Except.error "x")
      { id := 7, service_name := "s", service_identification := none,
        method := "m", data := some [51] }
      (fun _ _ => Except.ok none) (PyValue.pyint 3) (by simp) rfl rfl
      (fun xs h => PyValue.noConfusion h) (fun m h => PyValue.noConfusion h)⟩

/-- C7 counterexample: a subscribed event handler whose publish data fails
to decode (`jsonDecode` returns `none` on `[255]`) sees the wrapper raise:
the decode error escapes `_wrap` (it is outside the `try`), and in
particular the handler is never invoked with the raw bytes or anything
else. -/
theorem publish_decode_failure_counterexample :
    event_wrap (fun _ => none) (fun _ => Except.ok ()) (some [255]) =
      EventWrapOutcome.raisedDecodeError
    ∧ ∀ kwargs, EventWrapOutcome.raisedDecodeError ≠ EventWrapOutcome.handlerReturned kwargs :=
  ⟨rfl, fun _ h => EventWrapOutcome.noConfusion h⟩

/-- C7 amended: decoding of incoming publish data by `_event_wrap` is
strict, not best-effort: for every handler and every non-empty data whose
JSON decode fails, the wrapper raises the decode error (aborting dispatch
of that callback) instead of passing the raw bytes through. -/
theorem publish_decode_failure_raises
    (jsonDecode : List Nat → Option PyValue)
    (handler : List (String × PyValue) → Except String Unit)
    (bs : List Nat) (hne : bs ≠ []) (hdec : jsonDecode bs = none) :
    event_wrap jsonDecode handler (some bs) = EventWrapOutcome.raisedDecodeError := by
  have hb : bs.isEmpty = false := by
    cases bs with
    | nil => exact absurd rfl hne
    | cons a l => rfl
  simp [event_wrap, hb, hdec]

/-- C7 amended witness. -/
theorem publish_decode_failure_raises_witness :
    ([255] : List Nat) ≠ []
    ∧ (fun _ => (none : Option PyValue)) [255] = none
    ∧ event_wrap (fun _ => none) (fun _ => Except.error "boom") (some [255]) =
        EventWrapOutcome.raisedDecodeError :=
  ⟨by decide, rfl,
    publish_decode_failure_raises (fun _ => none) (fun _ => Except.error "boom")
      [255] (by decide) rfl⟩

/-- C8 counterexample: for the Reply, Publish and Request send operations,
an empty payload is *not* distinct from an absent one — `if data:` is
falsy for `b""`, so sending empty bytes produces exactly the envelope
produced by sending no data. -/
theorem empty_payload_collapses_counterexample :
    AbstractClient.reply_to 7 (some []) = AbstractClient.reply_to 7 none
    ∧ AbstractClient.publish "evt" (some []) = AbstractClient.publish "evt" none
    ∧ AbstractClient.request 5 "m" "s" none (some []) =
        AbstractClient.request 5 "m" "s" none none :=
  ⟨rfl, rfl, rfl⟩

/-- C8 amended: the send operations collapse an empty payload to an absent
one: sending with empty-byte data produces the same envelope as sending
with no data, and the payload field is present exactly when the data is
non-empty. -/
theorem payload_present_iff_nonempty
    (reqId seq : Nat) (event method service : String) (bs : List Nat) (h : bs ≠ []) :
    (AbstractClient.reply_to reqId (some bs)).data = some bs
    ∧ (AbstractClient.publish event (some bs)).data = some bs
    ∧ ((AbstractClient.request seq method service none (some bs)).1).data = some bs
    ∧ AbstractClient.reply_to reqId (some []) = AbstractClient.reply_to reqId none
    ∧ AbstractClient.publish event (some []) = AbstractClient.publish event none
    ∧ AbstractClient.request seq method service none (some []) =
        AbstractClient.request seq method service none none := by
  have hb : bs.isEmpty = false := by
    cases bs with
    | nil => exact absurd rfl h
    | cons a l => rfl
  refine ⟨?_, ?_, ?_, rfl, rfl, rfl⟩ <;>
    simp [AbstractClient.reply_to, AbstractClient.publish, AbstractClient.request,
      setDataField, hb]

/-- C8 amended witness. -/
theorem payload_present_iff_nonempty_witness :
    ([42] : List Nat) ≠ []
    ∧ ((AbstractClient.reply_to 7 (some [42])).data = some [42]
      ∧ (AbstractClient.publish "evt" (some [42])).data = some [42]
      ∧ ((AbstractClient.request 5 "m" "s" none (some [42])).1).data = some [42]
      ∧ AbstractClient.reply_to 7 (some []) = AbstractClient.reply_to 7 none
      ∧ AbstractClient.publish "evt" (some []) = AbstractClient.publish "evt" none
      ∧ AbstractClient.request 5 "m" "s" none (some []) =
          AbstractClient.request 5 "m" "s" none none) :=
  ⟨by decide, payload_present_iff_nonempty 7 5 "evt" "m" "s" [42] (by decide)⟩

/-- C2: with a non-empty dependency table, whenever `_setup_dependencies`
completes, its trace starts with the subscribe to the broker's new-service
channel, then the `list-services` request (already-registered pairs being
removed then, the rest during the waiting loop), and every completion
callback runs only after every dependency has been observed registered:
the trace is exactly subscribe, list, all observations, then all
callbacks, and the observations cover the whole dependency set. -/
theorem setup_dependencies_order
    (deps : List ((String × String) × List Nat))
    (registered : List (String × String)) (msgs : List DepMsg)
    (tr : List DepAction) (hne : deps ≠ [])
    (h : setup_dependencies deps registered msgs = some tr) :
    ∃ obs : List (String × String),
      tr = DepAction.subscribe "log.cellaserv.new-service" ::
           DepAction.listServices ::
           (obs.map DepAction.observed ++ dependencyCallbacks deps)
      ∧ ∀ d ∈ deps, d.1 ∈ obs := by
  have hemp : deps.isEmpty = false := by
    cases deps with
    | nil => exact absurd rfl hne
    | cons a l => rfl
  rw [show setup_dependencies deps registered msgs =
      (if deps.isEmpty then some [] else
        let unregistered := deps.map Prod.fst
        let p := removeListed unregistered registered
        match waitDeps p.2 msgs with
        | none => none
        | some obs2 =>
          some (DepAction.subscribe "log.cellaserv.new-service" ::
                DepAction.listServices ::
                ((p.1 ++ obs2).map DepAction.observed ++ dependencyCallbacks deps)))
      from rfl, hemp] at h
  simp only [Bool.false_eq_true, if_false] at h
  cases hw : waitDeps (removeListed (deps.map Prod.fst) registered).2 msgs with
  | none => rw [hw] at h; exact absurd h (by simp)
  | some obs2 =>
    rw [hw] at h
    refine ⟨(removeListed (deps.map Prod.fst) registered).1 ++ obs2, ?_, ?_⟩
    · exact (Option.some.inj h).symm
    · intro d hd
      have hd1 : d.1 ∈ deps.map Prod.fst := List.mem_map_of_mem Prod.fst hd
      rcases removeListed_covers registered (deps.map Prod.fst) d.1 hd1 with h1 | h2
      · exact List.mem_append_left _ h1
      · exact List.mem_append_right _ (waitDeps_covers msgs _ obs2 hw d.1 h2)

/-- C2 witness: the spec's scenario — dependency `A` already registered
before the listing, `B` registering only after the subscribe — terminates
with both observed and both callbacks run last. -/
theorem setup_dependencies_order_witness :
    ([(("A", ""), [0]), (("B", ""), [1])] : List ((String × String) × List Nat)) ≠ []
    ∧ setup_dependencies [(("A", ""), [0]), (("B", ""), [1])] [("A", "")]
        [DepMsg.otherMessage 1, DepMsg.newService "B" ""] =
      some [DepAction.subscribe "log.cellaserv.new-service", DepAction.listServices,
            DepAction.observed ("A", ""), DepAction.observed ("B", ""),
            DepAction.callback 0, DepAction.callback 1]
    ∧ ∃ obs : List (String × String),
        [DepAction.subscribe "log.cellaserv.new-service", DepAction.listServices,
         DepAction.observed ("A", ""), DepAction.observed ("B", ""),
         DepAction.callback 0, DepAction.callback 1] =
          DepAction.subscribe "log.cellaserv.new-service" ::
          DepAction.listServices ::
          (obs.map DepAction.observed ++
            dependencyCallbacks [(("A", ""), [0]), (("B", ""), [1])])
        ∧ ∀ d ∈ ([(("A", ""), [0]), (("B", ""), [1])] :
            List ((String × String) × List Nat)), d.1 ∈ obs :=
  ⟨by decide, by decide,
    setup_dependencies_order [(("A", ""), [0]), (("B", ""), [1])] [("A", "")]
      [DepMsg.otherMessage 1, DepMsg.newService "B" ""]
      [DepAction.subscribe "log.cellaserv.new-service", DepAction.listServices,
       DepAction.observed ("A", ""), DepAction.observed ("B", ""),
       DepAction.callback 0, DepAction.callback 1]
      (by decide) (by decide)⟩

end Cellaserv
